import Mathlib

/-!
Shallow embedding of the jfcard-merchant-google-maps crawler.

The repository holds two versions of the same puppeteer script:
  * `src/src/app.ts`        — embedded below in namespace `App`;
  * `src/unnamed/part_000`  — embedded below in namespace `Part0`
    (the version that adds explicit null checks with named error messages).

Modelling conventions:
  * A DOM read that may yield a missing node or a null text/attribute is an
    `Option (Option String)`: `none` = the node does not exist (puppeteer's
    `$eval` rejects), `some none` = the node exists but `textContent` /
    `getAttribute` returned null, `some (some s)` = the read returned `s`.
  * Rejected promises / thrown `Error`s are `Except CrawlError`.
    `CrawlError.elementNotFound sel` models puppeteer's `$eval`/`$` failure on
    a selector, `CrawlError.thrown msg` models an explicit
    `throw new Error(msg)`, and `CrawlError.typeError` models the TypeError
    raised by calling a method on `undefined`/`null`.
  * The browser page is modelled by explicit environment data: a paginated
    result set is a `List ResultPage` whose head is the currently displayed
    page; clicking the "next" control drops the head.  The content shown
    after selecting a genre (its search-result text and result pages) is
    attached to that genre's `GenreEl`.
  * Side effects (clicks on stateful controls and file writes) are recorded
    in a trace of `Event`s; every stateful operation returns
    `Except CrawlError α × List Event` (result, events emitted so far).
  * `Promise.all` over the per-row extractions is modelled by `promiseAll`,
    which is deterministic: it reports the left-most rejection.
  * JS `Number(textContent)` is modelled by `jsNumberOfText`, restricted to
    the integer-or-non-numeric strings that occur in pagination controls:
    null and the empty string give 0, an integer literal gives its value,
    anything else gives NaN.
-/

/-- One result row's DOM subtree: the `h4` title node and the
`.search_result_lists_address` node, each possibly absent or with null text. -/
structure Row where
  title : Option (Option String)
  address : Option (Option String)
deriving DecidableEq, Repr

/-- One displayed page of search results: the text of the highlighted
pagination control (`li.selected a`), if any; the visible result rows; and
whether a `li.next` control exists. -/
structure ResultPage where
  selected : Option (Option String)
  rows : List Row
  hasNext : Bool
deriving DecidableEq, Repr

/-- A JavaScript number restricted to what `Number(textContent)` can return
here: an integer or NaN. -/
inductive JSNum where
  | nan : JSNum
  | num : Int → JSNum
deriving DecidableEq, Repr

/-- The natural number denoted by a list of decimal digits. -/
def charsToNat (l : List Char) : Nat :=
  l.foldl (fun n c => n * 10 + (c.toNat - '0'.toNat)) 0

/-- JS `Number(t)` for `t : Option String` (null or a string): null and the
empty string coerce to 0, integer literals to their value, and any other
string to NaN.  (The model covers integer-or-non-numeric strings only, which
is the domain of the pagination controls.) -/
def jsNumberOfText : Option String → JSNum
  | none => JSNum.num 0
  | some s =>
    match s.data with
    | [] => JSNum.num 0
    | c :: cs =>
      if (c :: cs).all Char.isDigit then JSNum.num (charsToNat (c :: cs))
      else if c = '-' && !cs.isEmpty && cs.all Char.isDigit then
        JSNum.num (-(charsToNat cs : Int))
      else JSNum.nan

/-- A rejected promise / thrown error. -/
inductive CrawlError where
  | elementNotFound : String → CrawlError
  | thrown : String → CrawlError
  | typeError : CrawlError
deriving DecidableEq, Repr

instance {ε α : Type} [DecidableEq ε] [DecidableEq α] : DecidableEq (Except ε α) :=
  fun x y =>
    match x, y with
    | Except.error a, Except.error b =>
      if h : a = b then isTrue (by rw [h])
      else isFalse (by intro hc; cases hc; exact h rfl)
    | Except.ok a, Except.ok b =>
      if h : a = b then isTrue (by rw [h])
      else isFalse (by intro hc; cases hc; exact h rfl)
    | Except.error _, Except.ok _ => isFalse (by intro hc; cases hc)
    | Except.ok _, Except.error _ => isFalse (by intro hc; cases hc)

/-- One record as handed to the CSV serializer (`stringify` receives the raw
object, so a field may still be null in the untyped-at-runtime `app.ts`
version). -/
structure CsvRow where
  name : Option String
  address : Option String
  genre : Option String
deriving DecidableEq, Repr

/-- JS template-literal coercion of a possibly-null string. -/
def strOfNullable : Option String → String
  | none => "null"
  | some s => s

/-- The output path both versions build: `./dist/<pref>-<genre>.csv`. -/
def csvPath (prefName genreName : String) : String :=
  "./dist/" ++ prefName ++ "-" ++ genreName ++ ".csv"

/-- Observable side effects of the crawl. -/
inductive Event where
  | clickPrefLink : Event
  | clickGenre : Nat → Event
  | submitSearch : Event
  | selectPageSize : String → Event
  | clickNextPage : Event
  | writeFile : String → List CsvRow → Event
  | clickNextPref : Event
deriving DecidableEq, Repr

/-- A genre list item (`#genre_list ul li`): its `input` `data-label`
attribute, whether it contains an `a` element, and the page content the site
shows once this genre is selected and searched (`#search_result_text` and
the paginated result pages). -/
structure GenreEl where
  label : Option (Option String)
  anchor : Bool
  resultText : Option (Option String)
  pages : List ResultPage
deriving DecidableEq, Repr

/-- A prefecture list item: its `input` `data-label` attribute and whether
its `a[href="javascript:;"]` expansion link exists. -/
structure PrefEl where
  label : Option (Option String)
  link : Bool
deriving DecidableEq, Repr

/-- The page environment seen after a prefecture is selected: its genre list
and whether the `.area_city_list .common_search_nav a` next-prefecture link
exists. -/
structure PageEnv where
  genreList : List GenreEl
  nextPrefLink : Bool
deriving DecidableEq, Repr

/-- `Promise.all` over already-started extraction promises, modelled
deterministically: the left-most rejection wins. -/
def promiseAll {α : Type} : List (Except CrawlError α) → Except CrawlError (List α)
  | [] => Except.ok []
  | x :: xs =>
    match x with
    | Except.error e => Except.error e
    | Except.ok a =>
      match promiseAll xs with
      | Except.error e => Except.error e
      | Except.ok as => Except.ok (a :: as)

/-- Selector of the highlighted pagination control. -/
def selPagSelected : String := "#search_result_pagination li.selected a"

namespace Part0

/-- `Merchant` of part_000: all fields are non-null strings (the null cases
are turned into thrown errors before construction). -/
structure Merchant where
  name : String
  address : String
  genre : String
deriving DecidableEq, Repr

/-- The row handed to `stringify` for a `Merchant`. -/
def Merchant.toCsvRow (m : Merchant) : CsvRow :=
  ⟨some m.name, some m.address, some m.genre⟩

/-- `getPrefecturesName` of part_000: `$eval('input', getAttribute('data-label'))`
with an explicit null check. -/
def getPrefecturesName (pref : PrefEl) : Except CrawlError String :=
  match pref.label with
  | none => Except.error (CrawlError.elementNotFound "input")
  | some none => Except.error (CrawlError.thrown "都道府県名の取得に失敗しました。")
  | some (some s) => Except.ok s

/-- `getNowPagination` of part_000: `$eval` on the selected pagination
control (rejects when absent), then JS `Number` of its text. -/
def getNowPagination : List ResultPage → Except CrawlError JSNum
  | [] => Except.error (CrawlError.elementNotFound selPagSelected)
  | p :: _ =>
    match p.selected with
    | none => Except.error (CrawlError.elementNotFound selPagSelected)
    | some t => Except.ok (jsNumberOfText t)

/-- `hasNextPageButton` of part_000: `page.$('#search_result_pagination li.next')`
is non-null. -/
def hasNextPageButton : List ResultPage → Bool
  | [] => false
  | p :: _ => p.hasNext

/-- `getGenreName` of part_000. -/
def getGenreName (genreEl : GenreEl) : Except CrawlError String :=
  match genreEl.label with
  | none => Except.error (CrawlError.elementNotFound "input")
  | some none => Except.error (CrawlError.thrown "ジャンル名の取得に失敗しました。")
  | some (some s) => Except.ok s

/-- `convertDetailToMerchantObj` of part_000: reads the title (`h4`) and
address texts, with explicit null checks naming the missing field. -/
def convertDetailToMerchantObj (detailEl : Row) (genre : String) :
    Except CrawlError Merchant :=
  match detailEl.title with
  | none => Except.error (CrawlError.elementNotFound "h4")
  | some none => Except.error (CrawlError.thrown "加盟店名の取得に失敗しました。")
  | some (some name) =>
    match detailEl.address with
    | none => Except.error (CrawlError.elementNotFound ".search_result_lists_address")
    | some none => Except.error (CrawlError.thrown "住所の取得に失敗しました。")
    | some (some address) => Except.ok ⟨name, address, genre⟩

/-- The `while (hasNextPage)` body of `getMerchantFromSearchResult`: read the
current page number, extract all visible rows via `Promise.all`, append,
query `hasNextPageButton`, and advance (drop the head page, emitting a
`clickNextPage` event) only when it is true. -/
def getMerchantLoop (genre : String) :
    List ResultPage → List Merchant → Except CrawlError (List Merchant) × List Event
  | [], _ => (Except.error (CrawlError.elementNotFound selPagSelected), [])
  | p :: rest, acc =>
    match getNowPagination (p :: rest) with
    | Except.error e => (Except.error e, [])
    | Except.ok _ =>
      match promiseAll ((p.rows).map (fun d => convertDetailToMerchantObj d genre)) with
      | Except.error e => (Except.error e, [])
      | Except.ok picked =>
        if hasNextPageButton (p :: rest) then
          let r := getMerchantLoop genre rest (acc ++ picked)
          (r.1, Event.clickNextPage :: r.2)
        else (Except.ok (acc ++ picked), [])

/-- `getMerchantFromSearchResult` of part_000: an initial (diagnostic)
current-page read, then the pagination loop starting from an empty
accumulator. -/
def getMerchantFromSearchResult (pages : List ResultPage) (genre : String) :
    Except CrawlError (List Merchant) × List Event :=
  match getNowPagination pages with
  | Except.error e => (Except.error e, [])
  | Except.ok _ => getMerchantLoop genre pages []

/-- `saveMerchantsToCSVFile` of part_000, as the write event it performs:
path `./dist/<pref>-<genre>.csv`, rows as handed to `stringify`. -/
def saveMerchantsToCSVFile (merchants : List Merchant) (prefName genreName : String) :
    Event :=
  Event.writeFile (csvPath prefName genreName) (merchants.map Merchant.toCsvRow)

/-- One iteration of the genre loop inside `createMaps` of part_000, for the
genre element at index `idx`: read the label, find and click the genre `a`,
submit the search, set the page size to 100, read `#search_result_text`,
collect the merchants, write the per-genre file, and click the genre `a`
again to deselect it. -/
def runGenre (idx : Nat) (prefName : String) (g : GenreEl) :
    Except CrawlError (List Merchant) × List Event :=
  match getGenreName g with
  | Except.error e => (Except.error e, [])
  | Except.ok genreName =>
    if g.anchor then
      let tr0 := [Event.clickGenre idx, Event.submitSearch, Event.selectPageSize "100"]
      match g.resultText with
      | none => (Except.error (CrawlError.elementNotFound "#search_result_text"), tr0)
      | some none => (Except.error (CrawlError.thrown "検索結果の取得に失敗。"), tr0)
      | some (some _) =>
        let r := getMerchantFromSearchResult g.pages genreName
        match r.1 with
        | Except.error e => (Except.error e, tr0 ++ r.2)
        | Except.ok merchants =>
          (Except.ok merchants,
            tr0 ++ r.2 ++
              [saveMerchantsToCSVFile merchants prefName genreName, Event.clickGenre idx])
    else (Except.error (CrawlError.thrown "ジャンル要素の取得に失敗しました。"), [])

/-- The `for (const genreHandle of genreHandles)` loop of `createMaps` of
part_000, accumulating the prefecture-level merchant list. -/
def createMapsLoop (prefName : String) :
    Nat → List GenreEl → List Merchant → Except CrawlError (List Merchant) × List Event
  | _, [], acc => (Except.ok acc, [])
  | idx, g :: gs, acc =>
    match runGenre idx prefName g with
    | (Except.error e, tr) => (Except.error e, tr)
    | (Except.ok merchants, tr) =>
      let r := createMapsLoop prefName (idx + 1) gs (acc ++ merchants)
      (r.1, tr ++ r.2)

/-- `createMaps` of part_000: read the prefecture name, click its expansion
link (explicit null check), walk the genres, write the `all` aggregate file,
then find and click the next-prefecture link (explicit null check). -/
def createMaps (pref : PrefEl) (env : PageEnv) : Except CrawlError Unit × List Event :=
  match getPrefecturesName pref with
  | Except.error e => (Except.error e, [])
  | Except.ok prefecturesName =>
    if pref.link then
      let r := createMapsLoop prefecturesName 0 env.genreList []
      match r.1 with
      | Except.error e => (Except.error e, Event.clickPrefLink :: r.2)
      | Except.ok prefMerchants =>
        let tr1 := Event.clickPrefLink :: r.2 ++
          [saveMerchantsToCSVFile prefMerchants prefecturesName "all"]
        if env.nextPrefLink then (Except.ok (), tr1 ++ [Event.clickNextPref])
        else (Except.error (CrawlError.thrown "次の都道府県のリンクの取得に失敗しました。"), tr1)
    else (Except.error (CrawlError.thrown ""), [])

/-- `createMaps(page, pref)` where `pref` may be `undefined` (out-of-range
index): calling `pref.$eval` on `undefined` raises a TypeError. -/
def createMapsOpt (pref : Option PrefEl) (env : PageEnv) :
    Except CrawlError Unit × List Event :=
  match pref with
  | none => (Except.error CrawlError.typeError, [])
  | some p => createMaps p env

/-- The `for (const pref of selectedPrefs)` loop of `main` of part_000. -/
def mainLoop (env : PageEnv) : List (Option PrefEl) → Except CrawlError Unit × List Event
  | [] => (Except.ok (), [])
  | p :: ps =>
    match createMapsOpt p env with
    | (Except.error e, tr) => (Except.error e, tr)
    | (Except.ok _, tr) =>
      let r := mainLoop env ps
      (r.1, tr ++ r.2)

/-- `main` of part_000: `const selectedPrefs = [17].map(n => allPrefs[n])`
followed by the prefecture loop. -/
def main (allPrefs : List PrefEl) (env : PageEnv) : Except CrawlError Unit × List Event :=
  mainLoop env ([17].map (fun n => allPrefs[n]?))

end Part0

namespace App

/-- `Store` of app.ts: typed `string` in TS, but at runtime the fields hold
whatever `textContent`/`getAttribute` returned, which may be null. -/
structure Store where
  name : Option String
  address : Option String
  genre : Option String
deriving DecidableEq, Repr

/-- The row handed to `stringify` for a `Store`. -/
def Store.toCsvRow (s : Store) : CsvRow :=
  ⟨s.name, s.address, s.genre⟩

/-- `pickCurrentPageNumber` of app.ts (same body as part_000's
`getNowPagination`). -/
def pickCurrentPageNumber : List ResultPage → Except CrawlError JSNum
  | [] => Except.error (CrawlError.elementNotFound selPagSelected)
  | p :: _ =>
    match p.selected with
    | none => Except.error (CrawlError.elementNotFound selPagSelected)
    | some t => Except.ok (jsNumberOfText t)

/-- `hasNextPageButton` of app.ts. -/
def hasNextPageButton : List ResultPage → Bool
  | [] => false
  | p :: _ => p.hasNext

/-- `detailToStoreObj` of app.ts: reads the `h4` and address texts with no
null check — `$eval` rejects when the node is absent, but a null
`textContent` flows straight into the returned object. -/
def detailToStoreObj (detailEl : Row) (genre : Option String) :
    Except CrawlError Store :=
  match detailEl.title with
  | none => Except.error (CrawlError.elementNotFound "h4")
  | some name =>
    match detailEl.address with
    | none => Except.error (CrawlError.elementNotFound ".search_result_lists_address")
    | some address => Except.ok ⟨name, address, genre⟩

/-- The `while (hasNextPage)` body of `pickStores` of app.ts. -/
def pickStoresLoop (genre : Option String) :
    List ResultPage → List Store → Except CrawlError (List Store) × List Event
  | [], _ => (Except.error (CrawlError.elementNotFound selPagSelected), [])
  | p :: rest, acc =>
    match pickCurrentPageNumber (p :: rest) with
    | Except.error e => (Except.error e, [])
    | Except.ok _ =>
      match promiseAll ((p.rows).map (fun d => detailToStoreObj d genre)) with
      | Except.error e => (Except.error e, [])
      | Except.ok picked =>
        if hasNextPageButton (p :: rest) then
          let r := pickStoresLoop genre rest (acc ++ picked)
          (r.1, Event.clickNextPage :: r.2)
        else (Except.ok (acc ++ picked), [])

/-- `pickStores` of app.ts: an initial current-page read, then the
pagination loop. -/
def pickStores (pages : List ResultPage) (genre : Option String) :
    Except CrawlError (List Store) × List Event :=
  match pickCurrentPageNumber pages with
  | Except.error e => (Except.error e, [])
  | Except.ok _ => pickStoresLoop genre pages []

/-- `createCSVFile` of app.ts, as the write event it performs; the path is a
template literal, so a null prefecture or genre name renders as "null". -/
def createCSVFile (stores : List Store) (prefName genreName : Option String) : Event :=
  Event.writeFile (csvPath (strOfNullable prefName) (strOfNullable genreName))
    (stores.map Store.toCsvRow)

/-- One iteration of the genre loop inside `createMaps` of app.ts: like
part_000 but without null checks — a null genre label flows on, a missing
genre `a` raises a TypeError on `.click()`, and `#search_result_text` is
only required to exist, not to have non-null text. -/
def runGenre (idx : Nat) (prefName : Option String) (g : GenreEl) :
    Except CrawlError (List Store) × List Event :=
  match g.label with
  | none => (Except.error (CrawlError.elementNotFound "input"), [])
  | some genreName =>
    if g.anchor then
      let tr0 := [Event.clickGenre idx, Event.submitSearch, Event.selectPageSize "100"]
      match g.resultText with
      | none => (Except.error (CrawlError.elementNotFound "#search_result_text"), tr0)
      | some _ =>
        let r := pickStores g.pages genreName
        match r.1 with
        | Except.error e => (Except.error e, tr0 ++ r.2)
        | Except.ok stores =>
          (Except.ok stores,
            tr0 ++ r.2 ++ [createCSVFile stores prefName genreName, Event.clickGenre idx])
    else (Except.error CrawlError.typeError, [])

/-- The genre loop of `createMaps` of app.ts. -/
def createMapsLoop (prefName : Option String) :
    Nat → List GenreEl → List Store → Except CrawlError (List Store) × List Event
  | _, [], acc => (Except.ok acc, [])
  | idx, g :: gs, acc =>
    match runGenre idx prefName g with
    | (Except.error e, tr) => (Except.error e, tr)
    | (Except.ok stores, tr) =>
      let r := createMapsLoop prefName (idx + 1) gs (acc ++ stores)
      (r.1, tr ++ r.2)

/-- `createMaps` of app.ts: no null checks — a missing prefecture link or
next-prefecture link raises a TypeError on `.click()`. -/
def createMaps (pref : PrefEl) (env : PageEnv) : Except CrawlError Unit × List Event :=
  match pref.label with
  | none => (Except.error (CrawlError.elementNotFound "input"), [])
  | some prefName =>
    if pref.link then
      let r := createMapsLoop prefName 0 env.genreList []
      match r.1 with
      | Except.error e => (Except.error e, Event.clickPrefLink :: r.2)
      | Except.ok prefStores =>
        let tr1 := Event.clickPrefLink :: r.2 ++ [createCSVFile prefStores prefName (some "all")]
        if env.nextPrefLink then (Except.ok (), tr1 ++ [Event.clickNextPref])
        else (Except.error CrawlError.typeError, tr1)
    else (Except.error CrawlError.typeError, [])

/-- `createMaps(page, pref)` of app.ts with a possibly-undefined `pref`. -/
def createMapsOpt (pref : Option PrefEl) (env : PageEnv) :
    Except CrawlError Unit × List Event :=
  match pref with
  | none => (Except.error CrawlError.typeError, [])
  | some p => createMaps p env

/-- The prefecture loop of `main` of app.ts. -/
def mainLoop (env : PageEnv) : List (Option PrefEl) → Except CrawlError Unit × List Event
  | [] => (Except.ok (), [])
  | p :: ps =>
    match createMapsOpt p env with
    | (Except.error e, tr) => (Except.error e, tr)
    | (Except.ok _, tr) =>
      let r := mainLoop env ps
      (r.1, tr ++ r.2)

/-- `main` of app.ts: `[17].map(n => allPrefs[n])` and the prefecture loop. -/
def main (allPrefs : List PrefEl) (env : PageEnv) : Except CrawlError Unit × List Event :=
  mainLoop env ([17].map (fun n => allPrefs[n]?))

end App

/-! ### Well-formedness predicates and expected outputs -/

/-- A row whose title and address nodes both exist with non-null text, i.e.
one from which both versions extract a record without error. -/
def rowOk : Row → Bool
  | ⟨some (some _), some (some _)⟩ => true
  | _ => false

/-- The hasNext flags of a well-formed paginated sequence: true on every
page except the last. -/
def nextFlagsOk : List ResultPage → Bool
  | [] => true
  | [p] => !p.hasNext
  | p :: q :: rest => p.hasNext && nextFlagsOk (q :: rest)

/-- A paginated result set on which the collection loop runs to completion:
at least one page, a highlighted pagination control on every page, every row
extractable, and the next control present exactly on the non-final pages. -/
def pagesOk (pages : List ResultPage) : Bool :=
  !pages.isEmpty &&
    pages.all (fun p => p.selected.isSome && p.rows.all rowOk) &&
    nextFlagsOk pages

/-- The text of a present, non-null attribute read (dummy "" otherwise; only
used under hypotheses that make the read present and non-null). -/
def attrText : Option (Option String) → String
  | some (some s) => s
  | _ => ""

/-- A genre iteration that completes in part_000: label present and
non-null, genre anchor present, search-result text present and non-null,
and a well-formed paginated result set. -/
def genreOk (g : GenreEl) : Bool :=
  (match g.label with | some (some _) => true | _ => false) &&
    g.anchor &&
    (match g.resultText with | some (some _) => true | _ => false) &&
    pagesOk g.pages

/-- All DOM reads of a genre iteration return non-null values and all
queried elements exist (no termination requirement on the pagination
flags): the condition under which the two versions agree. -/
def genreAgree (g : GenreEl) : Bool :=
  (match g.label with | some (some _) => true | _ => false) &&
    g.anchor &&
    (match g.resultText with | some (some _) => true | _ => false) &&
    g.pages.all (fun p =>
      (match p.selected with | some (some _) => true | _ => false) &&
        p.rows.all rowOk)

/-- A prefecture element whose label read succeeds with non-null text and
whose expansion link exists. -/
def prefOk (pref : PrefEl) : Bool :=
  (match pref.label with | some (some _) => true | _ => false) && pref.link

/-- The file writes contained in a trace, in order. -/
def writesOf : List Event → List (String × List CsvRow)
  | [] => []
  | Event.writeFile p rs :: tr => (p, rs) :: writesOf tr
  | _ :: tr => writesOf tr

/-- Genre-selector clicks and file writes of a trace, in order. -/
def isGenreAction : Event → Bool
  | Event.clickGenre _ => true
  | Event.writeFile _ _ => true
  | _ => false

/-- The subtrace of genre-selector clicks and file writes. -/
def genreActions (tr : List Event) : List Event :=
  tr.filter isGenreAction

/-- Toggle semantics of a genre-selector click on the set of currently
selected selectors. -/
def toggle (i : Nat) (s : List Nat) : List Nat :=
  if i ∈ s then s.erase i else i :: s

/-- For each search submission in the trace, the set of genre selectors
selected at that moment (interpreting `clickGenre` as a toggle). -/
def submitSelections : List Event → List Nat → List (List Nat)
  | [], _ => []
  | Event.clickGenre i :: tr, s => submitSelections tr (toggle i s)
  | Event.submitSearch :: tr, s => s :: submitSelections tr s
  | _ :: tr, s => submitSelections tr s

/-- `[[idx], [idx+1], ..., [idx+m-1]]`: one singleton selection per
submission. -/
def idxSingles : Nat → Nat → List (List Nat)
  | _, 0 => []
  | idx, Nat.succ m => [idx] :: idxSingles (idx + 1) m

namespace Part0

/-- The record part_000 extracts from an extractable row. -/
def extractMerchant (genre : String) (r : Row) : Merchant :=
  ⟨attrText r.title, attrText r.address, genre⟩

/-- All records of a paginated result set, page by page in order. -/
def pagesMerchants (genre : String) (pages : List ResultPage) : List Merchant :=
  (pages.map (fun p => (p.rows).map (extractMerchant genre))).flatten

/-- The records a completing genre iteration collects. -/
def genreMerchants (g : GenreEl) : List Merchant :=
  pagesMerchants (attrText g.label) g.pages

/-- The event trace of one completing genre iteration. -/
def genreBlock (prefName : String) (idx : Nat) (g : GenreEl) : List Event :=
  [Event.clickGenre idx, Event.submitSearch, Event.selectPageSize "100"] ++
    List.replicate (g.pages.length - 1) Event.clickNextPage ++
    [saveMerchantsToCSVFile (genreMerchants g) prefName (attrText g.label),
      Event.clickGenre idx]

/-- The event traces of the genre iterations starting at index `idx`. -/
def genreBlocks (prefName : String) : Nat → List GenreEl → List Event
  | _, [] => []
  | idx, g :: gs => genreBlock prefName idx g ++ genreBlocks prefName (idx + 1) gs

/-- The full trace of a completed category walk: prefecture expansion, all
genre iterations, and the aggregate file write. -/
def walkTrace (prefName : String) (env : PageEnv) : List Event :=
  Event.clickPrefLink :: genreBlocks prefName 0 env.genreList ++
    [saveMerchantsToCSVFile ((env.genreList.map genreMerchants).flatten) prefName "all"]

/-- The per-genre file writes a completed walk performs, in order. -/
def expectedWrites (prefName : String) : List GenreEl → List (String × List CsvRow)
  | [] => []
  | g :: gs =>
    (csvPath prefName (attrText g.label), (genreMerchants g).map Merchant.toCsvRow) ::
      expectedWrites prefName gs

/-- The genre-action subtrace of a completed walk, per genre: activate,
persist the per-genre file, deactivate. -/
def expectedGenreActions (prefName : String) : Nat → List GenreEl → List Event
  | _, [] => []
  | idx, g :: gs =>
    Event.clickGenre idx ::
      saveMerchantsToCSVFile (genreMerchants g) prefName (attrText g.label) ::
        Event.clickGenre idx :: expectedGenreActions prefName (idx + 1) gs

/-- The error one page of results produces, if any: the pagination read
error when the highlighted control is absent, else the first extraction
error, else none. -/
def pageError (genre : String) (p : ResultPage) : Option CrawlError :=
  match getNowPagination [p] with
  | Except.error e => some e
  | Except.ok _ =>
    match promiseAll ((p.rows).map (fun d => convertDetailToMerchantObj d genre)) with
    | Except.error e => some e
    | Except.ok _ => none

end Part0

/-- The `Store` that app.ts's extraction yields for a record part_000 would
extract: the same texts, nullably wrapped. -/
def merchantToStore (m : Part0.Merchant) : App.Store :=
  ⟨some m.name, some m.address, some m.genre⟩

/-- Map over the success value of an `Except`. -/
def mapExcept {α β : Type} (f : α → β) : Except CrawlError α → Except CrawlError β
  | Except.error e => Except.error e
  | Except.ok a => Except.ok (f a)

/-! ### Success lemmas for the part_000 embedding -/

theorem convert_ok_of_rowOk (r : Row) (genre : String) (h : rowOk r = true) :
    Part0.convertDetailToMerchantObj r genre =
      Except.ok (Part0.extractMerchant genre r) := by
  obtain ⟨t, a⟩ := r
  rcases t with _ | (_ | t) <;> rcases a with _ | (_ | a) <;>
    first
      | rfl
      | simp [rowOk] at h

theorem promiseAll_convert_ok (genre : String) (rows : List Row)
    (h : rows.all rowOk = true) :
    promiseAll (rows.map (fun d => Part0.convertDetailToMerchantObj d genre)) =
      Except.ok (rows.map (Part0.extractMerchant genre)) := by
  induction rows with
  | nil => rfl
  | cons r rs ih =>
    simp only [List.all_cons, Bool.and_eq_true] at h
    simp only [List.map_cons, promiseAll, convert_ok_of_rowOk r genre h.1, ih h.2]

theorem getMerchantLoop_ok (genre : String) (pages : List ResultPage) :
    ∀ acc : List Part0.Merchant, pagesOk pages = true →
      Part0.getMerchantLoop genre pages acc =
        (Except.ok (acc ++ Part0.pagesMerchants genre pages),
          List.replicate (pages.length - 1) Event.clickNextPage) := by
  induction pages with
  | nil => intro acc h; simp [pagesOk] at h
  | cons p rest ih =>
    intro acc h
    simp only [pagesOk, List.isEmpty_cons, Bool.not_false, List.all_cons,
      Bool.and_eq_true, Option.isSome_iff_exists] at h
    obtain ⟨⟨_, ⟨⟨t, hsel⟩, hrows⟩, hall⟩, hflags⟩ := h
    cases rest with
    | nil =>
      have hnext : p.hasNext = false := by
        simpa [nextFlagsOk] using hflags
      simp [Part0.getMerchantLoop, Part0.getNowPagination, hsel,
        promiseAll_convert_ok genre p.rows hrows, Part0.hasNextPageButton, hnext,
        Part0.pagesMerchants]
    | cons q rest' =>
      have hnext : p.hasNext = true := by
        simp only [nextFlagsOk, Bool.and_eq_true] at hflags
        exact hflags.1
      have hflags' : nextFlagsOk (q :: rest') = true := by
        simp only [nextFlagsOk, Bool.and_eq_true] at hflags
        exact hflags.2
      have hok' : pagesOk (q :: rest') = true := by
        simp [pagesOk, hall, hflags']
      have hrec := ih (acc ++ p.rows.map (Part0.extractMerchant genre)) hok'
      conv_lhs => rw [Part0.getMerchantLoop]
      simp only [Part0.getNowPagination, hsel,
        promiseAll_convert_ok genre p.rows hrows, Part0.hasNextPageButton, hnext,
        if_true]
      rw [hrec]
      simp [Part0.pagesMerchants, List.replicate_succ]

theorem getMerchant_ok (genre : String) (pages : List ResultPage)
    (h : pagesOk pages = true) :
    Part0.getMerchantFromSearchResult pages genre =
      (Except.ok (Part0.pagesMerchants genre pages),
        List.replicate (pages.length - 1) Event.clickNextPage) := by
  cases pages with
  | nil => simp [pagesOk] at h
  | cons p rest =>
    have h' := h
    simp only [pagesOk, List.isEmpty_cons, Bool.not_false, List.all_cons,
      Bool.and_eq_true, Option.isSome_iff_exists] at h'
    obtain ⟨⟨_, ⟨⟨t, hsel⟩, _⟩, _⟩, _⟩ := h'
    have := getMerchantLoop_ok genre (p :: rest) [] h
    simp only [Part0.getMerchantFromSearchResult, Part0.getNowPagination, hsel, this,
      List.nil_append]

theorem runGenre_ok (idx : Nat) (prefName : String) (g : GenreEl)
    (h : genreOk g = true) :
    Part0.runGenre idx prefName g =
      (Except.ok (Part0.genreMerchants g), Part0.genreBlock prefName idx g) := by
  obtain ⟨lbl, anc, rt, pgs⟩ := g
  rcases lbl with _ | (_ | l) <;> rcases rt with _ | (_ | s) <;>
    simp only [genreOk, Bool.and_eq_true, Bool.false_eq_true, false_and, and_false,
      true_and, and_true] at h
  obtain ⟨hanc, hpages⟩ := h
  subst hanc
  simp only [Part0.runGenre, Part0.getGenreName, if_true]
  rw [getMerchant_ok l pgs hpages]
  simp [Part0.genreBlock, Part0.genreMerchants, attrText, Part0.saveMerchantsToCSVFile]

theorem createMapsLoop_ok (prefName : String) (gs : List GenreEl) :
    ∀ (idx : Nat) (acc : List Part0.Merchant), gs.all genreOk = true →
      Part0.createMapsLoop prefName idx gs acc =
        (Except.ok (acc ++ (gs.map Part0.genreMerchants).flatten),
          Part0.genreBlocks prefName idx gs) := by
  induction gs with
  | nil =>
    intro idx acc _
    simp [Part0.createMapsLoop, Part0.genreBlocks]
  | cons g gs ih =>
    intro idx acc h
    simp only [List.all_cons, Bool.and_eq_true] at h
    simp only [Part0.createMapsLoop, runGenre_ok idx prefName g h.1,
      ih (idx + 1) (acc ++ Part0.genreMerchants g) h.2]
    simp [Part0.genreBlocks]

theorem createMaps_run (pref : PrefEl) (env : PageEnv)
    (hp : prefOk pref = true) (hg : env.genreList.all genreOk = true) :
    Part0.createMaps pref env =
      ((if env.nextPrefLink then Except.ok ()
        else Except.error (CrawlError.thrown "次の都道府県のリンクの取得に失敗しました。")),
        Part0.walkTrace (attrText pref.label) env ++
          (if env.nextPrefLink then [Event.clickNextPref] else [])) := by
  obtain ⟨lbl, lnk⟩ := pref
  rcases lbl with _ | (_ | l) <;>
    simp only [prefOk, Bool.and_eq_true, Bool.false_eq_true, false_and, true_and] at hp
  subst hp
  simp only [Part0.createMaps, Part0.getPrefecturesName, if_true,
    createMapsLoop_ok l env.genreList 0 [] hg]
  cases hnl : env.nextPrefLink <;>
    simp [Part0.walkTrace, attrText, Part0.saveMerchantsToCSVFile]

/-! ### Trace observation lemmas -/

theorem writesOf_append (a b : List Event) :
    writesOf (a ++ b) = writesOf a ++ writesOf b := by
  induction a with
  | nil => rfl
  | cons x a ih => cases x <;> simp [writesOf, ih]

theorem writesOf_replicate_click (n : Nat) :
    writesOf (List.replicate n Event.clickNextPage) = [] := by
  induction n with
  | zero => rfl
  | succ n ih => simp [List.replicate_succ, writesOf, ih]

theorem writesOf_genreBlock (prefName : String) (idx : Nat) (g : GenreEl) :
    writesOf (Part0.genreBlock prefName idx g) =
      [(csvPath prefName (attrText g.label),
        (Part0.genreMerchants g).map Part0.Merchant.toCsvRow)] := by
  simp [Part0.genreBlock, writesOf, writesOf_append, writesOf_replicate_click,
    Part0.saveMerchantsToCSVFile]

theorem writesOf_genreBlocks (prefName : String) (gs : List GenreEl) :
    ∀ idx : Nat, writesOf (Part0.genreBlocks prefName idx gs) =
      Part0.expectedWrites prefName gs := by
  induction gs with
  | nil => intro idx; rfl
  | cons g gs ih =>
    intro idx
    simp [Part0.genreBlocks, writesOf_append, writesOf_genreBlock, ih,
      Part0.expectedWrites]

theorem writesOf_getMerchantLoop (genre : String) (pages : List ResultPage) :
    ∀ acc : List Part0.Merchant,
      writesOf (Part0.getMerchantLoop genre pages acc).2 = [] := by
  induction pages with
  | nil => intro acc; rfl
  | cons p rest ih =>
    intro acc
    simp only [Part0.getMerchantLoop]
    rcases hsel : p.selected with _ | t
    · simp [Part0.getNowPagination, hsel, writesOf]
    · simp only [Part0.getNowPagination, hsel]
      rcases hpa : promiseAll ((p.rows).map (fun d => Part0.convertDetailToMerchantObj d genre))
        with e | picked
      · simp [writesOf]
      · simp only []
        cases hnx : Part0.hasNextPageButton (p :: rest) <;> simp [writesOf, ih]

theorem writesOf_getMerchant (genre : String) (pages : List ResultPage) :
    writesOf (Part0.getMerchantFromSearchResult pages genre).2 = [] := by
  simp only [Part0.getMerchantFromSearchResult]
  rcases h : Part0.getNowPagination pages with e | v
  · rfl
  · exact writesOf_getMerchantLoop genre pages []

theorem genreActions_append (a b : List Event) :
    genreActions (a ++ b) = genreActions a ++ genreActions b := by
  simp [genreActions, List.filter_append]

theorem genreActions_replicate_click (n : Nat) :
    genreActions (List.replicate n Event.clickNextPage) = [] := by
  induction n with
  | zero => rfl
  | succ n ih =>
    simp [List.replicate_succ, genreActions, isGenreAction]

theorem genreActions_genreBlocks (prefName : String) (gs : List GenreEl) :
    ∀ idx : Nat, genreActions (Part0.genreBlocks prefName idx gs) =
      Part0.expectedGenreActions prefName idx gs := by
  induction gs with
  | nil => intro idx; rfl
  | cons g gs ih =>
    intro idx
    simp only [Part0.genreBlocks, genreActions_append, ih, Part0.expectedGenreActions]
    simp [Part0.genreBlock, genreActions, isGenreAction, List.filter_append,
      Part0.saveMerchantsToCSVFile, List.filter_replicate]

theorem submitSelections_replicate_click (n : Nat) (tr : List Event) (s : List Nat) :
    submitSelections (List.replicate n Event.clickNextPage ++ tr) s =
      submitSelections tr s := by
  induction n with
  | zero => rfl
  | succ n ih => simp [List.replicate_succ, submitSelections, ih]

theorem submitSelections_genreBlock (prefName : String) (idx : Nat) (g : GenreEl)
    (tr : List Event) :
    submitSelections (Part0.genreBlock prefName idx g ++ tr) [] =
      [idx] :: submitSelections tr [] := by
  have h1 : Part0.genreBlock prefName idx g ++ tr =
      Event.clickGenre idx :: Event.submitSearch :: Event.selectPageSize "100" ::
        (List.replicate (g.pages.length - 1) Event.clickNextPage ++
          (Event.writeFile (csvPath prefName (attrText g.label))
              ((Part0.genreMerchants g).map Part0.Merchant.toCsvRow) ::
            Event.clickGenre idx :: tr)) := by
    simp [Part0.genreBlock, Part0.saveMerchantsToCSVFile]
  rw [h1]
  simp only [submitSelections]
  have htog : toggle idx [] = [idx] := by simp [toggle]
  rw [htog, submitSelections_replicate_click]
  simp [submitSelections, toggle]

theorem submitSelections_genreBlocks (prefName : String) (gs : List GenreEl) :
    ∀ (idx : Nat) (tr : List Event),
      submitSelections (Part0.genreBlocks prefName idx gs ++ tr) [] =
        idxSingles idx gs.length ++ submitSelections tr [] := by
  induction gs with
  | nil => intro idx tr; simp [Part0.genreBlocks, idxSingles]
  | cons g gs ih =>
    intro idx tr
    simp only [Part0.genreBlocks, List.append_assoc, submitSelections_genreBlock,
      ih, List.length_cons, idxSingles, List.cons_append]

/-! ### Failure propagation lemmas -/

theorem getMerchantLoop_fails (genre : String) (bad : ResultPage)
    (after : List ResultPage) (e : CrawlError)
    (hbad : Part0.pageError genre bad = some e) :
    ∀ (front : List ResultPage) (acc : List Part0.Merchant),
      (∀ q ∈ front, q.selected.isSome = true ∧ q.rows.all rowOk = true ∧
        q.hasNext = true) →
      (Part0.getMerchantLoop genre (front ++ bad :: after) acc).1 =
        Except.error e := by
  intro front
  induction front with
  | nil =>
    intro acc _
    simp only [List.nil_append, Part0.getMerchantLoop]
    rcases hsel : bad.selected with _ | t
    · have : e = CrawlError.elementNotFound selPagSelected := by
        simp [Part0.pageError, Part0.getNowPagination, hsel] at hbad
        exact hbad.symm
      simp [Part0.getNowPagination, hsel, this]
    · simp only [Part0.getNowPagination, hsel]
      rcases hpa : promiseAll ((bad.rows).map
          (fun d => Part0.convertDetailToMerchantObj d genre)) with e' | picked
      · have : e' = e := by
          simp [Part0.pageError, Part0.getNowPagination, hsel, hpa] at hbad
          exact hbad
        simp [this]
      · simp [Part0.pageError, Part0.getNowPagination, hsel, hpa] at hbad
  | cons q front' ih =>
    intro acc hfront
    have hq := hfront q (List.mem_cons_self q front')
    have hfront' : ∀ r ∈ front', r.selected.isSome = true ∧
        r.rows.all rowOk = true ∧ r.hasNext = true :=
      fun r hr => hfront r (List.mem_cons_of_mem q hr)
    obtain ⟨t, hsel⟩ := Option.isSome_iff_exists.mp hq.1
    simp only [List.cons_append, Part0.getMerchantLoop, Part0.getNowPagination, hsel,
      promiseAll_convert_ok genre q.rows hq.2.1, Part0.hasNextPageButton, hq.2.2,
      if_true]
    exact ih (acc ++ q.rows.map (Part0.extractMerchant genre)) hfront'

theorem getMerchant_fails (genre : String) (front : List ResultPage)
    (bad : ResultPage) (after : List ResultPage) (e : CrawlError)
    (hfront : ∀ q ∈ front, q.selected.isSome = true ∧ q.rows.all rowOk = true ∧
      q.hasNext = true)
    (hbad : Part0.pageError genre bad = some e) :
    (Part0.getMerchantFromSearchResult (front ++ bad :: after) genre).1 =
      Except.error e := by
  cases front with
  | nil =>
    simp only [List.nil_append, Part0.getMerchantFromSearchResult]
    rcases hsel : bad.selected with _ | t
    · have : e = CrawlError.elementNotFound selPagSelected := by
        simp [Part0.pageError, Part0.getNowPagination, hsel] at hbad
        exact hbad.symm
      simp [Part0.getNowPagination, hsel, this]
    · simp only [Part0.getNowPagination, hsel]
      have := getMerchantLoop_fails genre bad after e hbad [] [] (by intro q hq; cases hq)
      simpa using this
  | cons q front' =>
    have hq := hfront q (List.mem_cons_self q front')
    obtain ⟨t, hsel⟩ := Option.isSome_iff_exists.mp hq.1
    simp only [List.cons_append, Part0.getMerchantFromSearchResult,
      Part0.getNowPagination, hsel]
    exact getMerchantLoop_fails genre bad after e hbad (q :: front') [] hfront

theorem runGenre_fails (idx : Nat) (prefName gname s : String) (g : GenreEl)
    (hl : g.label = some (some gname)) (ha : g.anchor = true)
    (hrt : g.resultText = some (some s)) (e : CrawlError)
    (hfail : (Part0.getMerchantFromSearchResult g.pages gname).1 = Except.error e) :
    (Part0.runGenre idx prefName g).1 = Except.error e ∧
      writesOf (Part0.runGenre idx prefName g).2 = [] := by
  obtain ⟨lbl, anc, rt, pgs⟩ := g
  simp only at hl ha hrt hfail
  subst hl; subst ha; subst hrt
  simp only [Part0.runGenre, Part0.getGenreName, if_true]
  rcases hr : Part0.getMerchantFromSearchResult pgs gname with ⟨res, tr⟩
  rw [hr] at hfail
  simp only at hfail
  subst hfail
  refine ⟨rfl, ?_⟩
  have htr : writesOf tr = [] := by
    have := writesOf_getMerchant gname pgs
    rw [hr] at this
    exact this
  simp [writesOf_append, writesOf, htr]

theorem createMapsLoop_failsAt (prefName : String) (g : GenreEl)
    (gs' : List GenreEl) (e : CrawlError)
    (hg : ∀ idx : Nat, (Part0.runGenre idx prefName g).1 = Except.error e ∧
      writesOf (Part0.runGenre idx prefName g).2 = []) :
    ∀ (gs : List GenreEl) (idx : Nat) (acc : List Part0.Merchant),
      gs.all genreOk = true →
      (Part0.createMapsLoop prefName idx (gs ++ g :: gs') acc).1 = Except.error e ∧
        writesOf (Part0.createMapsLoop prefName idx (gs ++ g :: gs') acc).2 =
          Part0.expectedWrites prefName gs := by
  intro gs
  induction gs with
  | nil =>
    intro idx acc _
    obtain ⟨h1, h2⟩ := hg idx
    rcases hrun : Part0.runGenre idx prefName g with ⟨res, tr⟩
    rw [hrun] at h1 h2
    simp only at h1 h2
    subst h1
    simp only [List.nil_append, Part0.createMapsLoop, hrun]
    exact ⟨trivial, h2⟩
  | cons g0 gs ih =>
    intro idx acc h
    simp only [List.all_cons, Bool.and_eq_true] at h
    simp only [List.cons_append, Part0.createMapsLoop,
      runGenre_ok idx prefName g0 h.1]
    obtain ⟨ih1, ih2⟩ := ih (idx + 1) (acc ++ Part0.genreMerchants g0) h.2
    refine ⟨ih1, ?_⟩
    simp [writesOf_append, writesOf_genreBlock, ih2, Part0.expectedWrites]

theorem createMaps_failsAt (pref : PrefEl) (env : PageEnv) (prefName : String)
    (g : GenreEl) (gs gs' : List GenreEl) (e : CrawlError)
    (hp : pref.label = some (some prefName)) (hlink : pref.link = true)
    (hsplit : env.genreList = gs ++ g :: gs')
    (hgs : gs.all genreOk = true)
    (hg : ∀ idx : Nat, (Part0.runGenre idx prefName g).1 = Except.error e ∧
      writesOf (Part0.runGenre idx prefName g).2 = []) :
    (Part0.createMaps pref env).1 = Except.error e ∧
      writesOf (Part0.createMaps pref env).2 = Part0.expectedWrites prefName gs := by
  obtain ⟨lbl, lnk⟩ := pref
  simp only at hp hlink
  subst hp; subst hlink
  simp only [Part0.createMaps, Part0.getPrefecturesName, if_true, hsplit]
  obtain ⟨h1, h2⟩ := createMapsLoop_failsAt prefName g gs' e hg gs 0 [] hgs
  rcases hrun : Part0.createMapsLoop prefName 0 (gs ++ g :: gs') [] with ⟨res, tr⟩
  rw [hrun] at h1 h2
  simp only at h1 h2
  subst h1
  exact ⟨rfl, by simp [writesOf, h2]⟩

/-! ### Agreement of the two versions on null-free, element-complete runs -/

theorem pick_eq_getNow (pages : List ResultPage) :
    App.pickCurrentPageNumber pages = Part0.getNowPagination pages := by
  cases pages <;> rfl

theorem toCsvRow_mts (m : Part0.Merchant) :
    App.Store.toCsvRow (merchantToStore m) = Part0.Merchant.toCsvRow m := rfl

theorem detailToStore_eq (r : Row) (gname : String) (h : rowOk r = true) :
    App.detailToStoreObj r (some gname) =
      Except.ok (merchantToStore (Part0.extractMerchant gname r)) := by
  obtain ⟨t, a⟩ := r
  rcases t with _ | (_ | t) <;> rcases a with _ | (_ | a) <;>
    first
      | rfl
      | simp [rowOk] at h

theorem promiseAll_detail_ok (gname : String) (rows : List Row)
    (h : rows.all rowOk = true) :
    promiseAll (rows.map (fun d => App.detailToStoreObj d (some gname))) =
      Except.ok ((rows.map (Part0.extractMerchant gname)).map merchantToStore) := by
  induction rows with
  | nil => rfl
  | cons r rs ih =>
    simp only [List.all_cons, Bool.and_eq_true] at h
    simp only [List.map_cons, promiseAll, detailToStore_eq r gname h.1, ih h.2]

theorem loops_agree (gname : String) (pages : List ResultPage) :
    ∀ acc : List Part0.Merchant,
      pages.all (fun p => p.rows.all rowOk) = true →
      App.pickStoresLoop (some gname) pages (acc.map merchantToStore) =
        (mapExcept (List.map merchantToStore)
          (Part0.getMerchantLoop gname pages acc).1,
          (Part0.getMerchantLoop gname pages acc).2) := by
  induction pages with
  | nil => intro acc _; rfl
  | cons p rest ih =>
    intro acc h
    simp only [List.all_cons, Bool.and_eq_true] at h
    rcases hsel : p.selected with _ | t
    · simp [App.pickStoresLoop, Part0.getMerchantLoop, App.pickCurrentPageNumber,
        Part0.getNowPagination, hsel, mapExcept]
    · simp only [App.pickStoresLoop, Part0.getMerchantLoop, App.pickCurrentPageNumber,
        Part0.getNowPagination, hsel,
        promiseAll_detail_ok gname p.rows h.1, promiseAll_convert_ok gname p.rows h.1,
        App.hasNextPageButton, Part0.hasNextPageButton]
      cases hnx : p.hasNext
      · simp [mapExcept, List.map_append]
      · have hmap : List.map merchantToStore acc ++
            (p.rows.map (Part0.extractMerchant gname)).map merchantToStore =
            (acc ++ p.rows.map (Part0.extractMerchant gname)).map merchantToStore := by
          simp [List.map_append]
        simp only [if_true, hmap, ih (acc ++ p.rows.map (Part0.extractMerchant gname)) h.2]

theorem collect_agree (gname : String) (pages : List ResultPage)
    (h : pages.all (fun p => p.rows.all rowOk) = true) :
    App.pickStores pages (some gname) =
      (mapExcept (List.map merchantToStore)
        (Part0.getMerchantFromSearchResult pages gname).1,
        (Part0.getMerchantFromSearchResult pages gname).2) := by
  simp only [App.pickStores, Part0.getMerchantFromSearchResult, pick_eq_getNow]
  rcases hn : Part0.getNowPagination pages with e | v
  · rfl
  · simpa using loops_agree gname pages [] h

theorem runGenre_agree (idx : Nat) (pn : String) (g : GenreEl)
    (h : genreAgree g = true) :
    App.runGenre idx (some pn) g =
      (mapExcept (List.map merchantToStore) (Part0.runGenre idx pn g).1,
        (Part0.runGenre idx pn g).2) := by
  obtain ⟨lbl, anc, rt, pgs⟩ := g
  rcases lbl with _ | (_ | l) <;> rcases rt with _ | (_ | s) <;>
    simp only [genreAgree, Bool.and_eq_true, Bool.false_eq_true, false_and, and_false,
      true_and, and_true] at h
  obtain ⟨hanc, hrows⟩ := h
  subst hanc
  have hrows' : pgs.all (fun p => p.rows.all rowOk) = true := by
    rw [List.all_eq_true] at hrows ⊢
    intro p hp
    have := hrows p hp
    simp only [Bool.and_eq_true] at this
    exact this.2
  simp only [App.runGenre, Part0.runGenre, Part0.getGenreName, if_true,
    collect_agree l pgs hrows']
  rcases hr : Part0.getMerchantFromSearchResult pgs l with ⟨res, tr⟩
  rcases res with e | merchants
  · rfl
  · simp only [mapExcept]
    simp only [App.createCSVFile, Part0.saveMerchantsToCSVFile, strOfNullable]
    simp [List.map_map, Function.comp]
    exact fun a _ => rfl

theorem createMapsLoop_agree (pn : String) (gs : List GenreEl) :
    ∀ (idx : Nat) (acc : List Part0.Merchant),
      gs.all genreAgree = true →
      App.createMapsLoop (some pn) idx gs (acc.map merchantToStore) =
        (mapExcept (List.map merchantToStore)
          (Part0.createMapsLoop pn idx gs acc).1,
          (Part0.createMapsLoop pn idx gs acc).2) := by
  induction gs with
  | nil => intro idx acc _; rfl
  | cons g gs ih =>
    intro idx acc h
    simp only [List.all_cons, Bool.and_eq_true] at h
    simp only [App.createMapsLoop, Part0.createMapsLoop, runGenre_agree idx pn g h.1]
    rcases hr : Part0.runGenre idx pn g with ⟨res, tr⟩
    rcases res with e | merchants
    · rfl
    · have hmap : List.map merchantToStore acc ++ merchants.map merchantToStore =
          (acc ++ merchants).map merchantToStore := by
        simp [List.map_append]
      simp only [mapExcept, hmap, ih (idx + 1) (acc ++ merchants) h.2]

theorem createMaps_agree (pref : PrefEl) (env : PageEnv) (pn : String)
    (hp : pref.label = some (some pn)) (hlink : pref.link = true)
    (hgs : env.genreList.all genreAgree = true)
    (hnext : env.nextPrefLink = true) :
    App.createMaps pref env = Part0.createMaps pref env := by
  obtain ⟨lbl, lnk⟩ := pref
  simp only at hp hlink
  subst hp; subst hlink
  have hloop := createMapsLoop_agree pn env.genreList 0 [] hgs
  simp only [List.map_nil] at hloop
  simp only [App.createMaps, Part0.createMaps, Part0.getPrefecturesName, if_true,
    hloop, hnext]
  rcases hr : Part0.createMapsLoop pn 0 env.genreList [] with ⟨res, tr⟩
  rcases res with e | merchants
  · rfl
  · simp only [mapExcept]
    simp only [App.createCSVFile, Part0.saveMerchantsToCSVFile, strOfNullable]
    simp [List.map_map, Function.comp]
    exact fun a _ => rfl

theorem main_agree (allPrefs : List PrefEl) (env : PageEnv) (pref : PrefEl)
    (pn : String) (h17 : allPrefs[17]? = some pref)
    (hp : pref.label = some (some pn)) (hlink : pref.link = true)
    (hgs : env.genreList.all genreAgree = true)
    (hnext : env.nextPrefLink = true) :
    App.main allPrefs env = Part0.main allPrefs env := by
  simp only [App.main, Part0.main, List.map_cons, List.map_nil, h17,
    App.mainLoop, Part0.mainLoop, App.createMapsOpt, Part0.createMapsOpt,
    createMaps_agree pref env pn hp hlink hgs hnext]

/-! ### Counting helpers -/

theorem pagesOk_rows (pages : List ResultPage) (h : pagesOk pages = true) :
    pages.all (fun p => p.rows.all rowOk) = true := by
  simp only [pagesOk, Bool.and_eq_true] at h
  obtain ⟨⟨-, hall⟩, -⟩ := h
  rw [List.all_eq_true] at hall ⊢
  intro p hp
  have := hall p hp
  simp only [Bool.and_eq_true] at this
  exact this.2

theorem pagesMerchants_length (genre : String) (pages : List ResultPage) (N : Nat)
    (h : ∀ p ∈ pages, p.rows.length = N) :
    (Part0.pagesMerchants genre pages).length = pages.length * N := by
  induction pages with
  | nil => simp [Part0.pagesMerchants]
  | cons p rest ih =>
    have hp := h p (List.mem_cons_self p rest)
    have hrest := ih (fun q hq => h q (List.mem_cons_of_mem p hq))
    simp only [Part0.pagesMerchants, List.map_cons, List.flatten_cons,
      List.length_append, List.length_map] at hrest ⊢
    rw [hp, hrest]
    simp [Nat.succ_mul, Nat.add_comm]

theorem expectedWrites_length (pn : String) (gs : List GenreEl) :
    (Part0.expectedWrites pn gs).length = gs.length := by
  induction gs with
  | nil => rfl
  | cons g gs ih => simp [Part0.expectedWrites, ih]

/-! ### Claim theorems -/

/-- C1: for a paginated result sequence of K pages with N extractable rows
each, whose current-page indicator is readable on every page and whose
next-page control exists exactly on pages 1..K-1, the collection loop of
both versions terminates and returns exactly K×N records, accumulated in
page order, advancing exactly K-1 times. -/
theorem C1_collectAll_K_pages (genre : String) (K N : Nat)
    (pages : List ResultPage) (hK : pages.length = K)
    (hN : ∀ p ∈ pages, p.rows.length = N) (hok : pagesOk pages = true) :
    (Part0.getMerchantFromSearchResult pages genre).1 =
        Except.ok (Part0.pagesMerchants genre pages) ∧
      (Part0.pagesMerchants genre pages).length = K * N ∧
      (Part0.getMerchantFromSearchResult pages genre).2 =
        List.replicate (K - 1) Event.clickNextPage ∧
      (App.pickStores pages (some genre)).1 =
        Except.ok ((Part0.pagesMerchants genre pages).map merchantToStore) ∧
      ((Part0.pagesMerchants genre pages).map merchantToStore).length = K * N := by
  subst hK
  have h1 := getMerchant_ok genre pages hok
  have h2 := collect_agree genre pages (pagesOk_rows pages hok)
  have hlen := pagesMerchants_length genre pages N hN
  refine ⟨by rw [h1], hlen, by rw [h1], ?_, by simp [hlen]⟩
  rw [h2, h1]
  simp [mapExcept]

/-- Witness for C1 at a concrete two-page, one-row-per-page result set. -/
theorem C1_collectAll_K_pages_witness :
    (Part0.getMerchantFromSearchResult
        [⟨some (some "1"), [⟨some (some "店A"), some (some "住A")⟩], true⟩,
          ⟨some (some "2"), [⟨some (some "店B"), some (some "住B")⟩], false⟩]
        "飲食店").1 =
        Except.ok (Part0.pagesMerchants "飲食店"
          [⟨some (some "1"), [⟨some (some "店A"), some (some "住A")⟩], true⟩,
            ⟨some (some "2"), [⟨some (some "店B"), some (some "住B")⟩], false⟩]) ∧
      (Part0.pagesMerchants "飲食店"
        [⟨some (some "1"), [⟨some (some "店A"), some (some "住A")⟩], true⟩,
          ⟨some (some "2"), [⟨some (some "店B"), some (some "住B")⟩], false⟩]).length =
        2 * 1 ∧
      (Part0.getMerchantFromSearchResult
        [⟨some (some "1"), [⟨some (some "店A"), some (some "住A")⟩], true⟩,
          ⟨some (some "2"), [⟨some (some "店B"), some (some "住B")⟩], false⟩]
        "飲食店").2 = List.replicate (2 - 1) Event.clickNextPage ∧
      (App.pickStores
        [⟨some (some "1"), [⟨some (some "店A"), some (some "住A")⟩], true⟩,
          ⟨some (some "2"), [⟨some (some "店B"), some (some "住B")⟩], false⟩]
        (some "飲食店")).1 =
        Except.ok ((Part0.pagesMerchants "飲食店"
          [⟨some (some "1"), [⟨some (some "店A"), some (some "住A")⟩], true⟩,
            ⟨some (some "2"), [⟨some (some "店B"), some (some "住B")⟩], false⟩]).map
          merchantToStore) ∧
      ((Part0.pagesMerchants "飲食店"
        [⟨some (some "1"), [⟨some (some "店A"), some (some "住A")⟩], true⟩,
          ⟨some (some "2"), [⟨some (some "店B"), some (some "住B")⟩], false⟩]).map
        merchantToStore).length = 2 * 1 :=
  C1_collectAll_K_pages "飲食店" 2 1
    [⟨some (some "1"), [⟨some (some "店A"), some (some "住A")⟩], true⟩,
      ⟨some (some "2"), [⟨some (some "店B"), some (some "住B")⟩], false⟩]
    (by decide) (by decide) (by decide)

/-- C4 counterexample: app.ts's `detailToStoreObj` does NOT fail when the
title read returns null text — it returns a record holding the null value,
refuting the claim that both extraction functions fail with an error naming
the missing field on null text. -/
theorem C4_null_text_counterexample :
    App.detailToStoreObj ⟨some none, some (some "石川県金沢市")⟩ (some "レストラン") =
      Except.ok ⟨none, some "石川県金沢市", some "レストラン"⟩ := rfl

/-- C4 amended: part_000's `convertDetailToMerchantObj` fails with an error
naming the missing field when the title or address read returns null text
(and rejects with the selector when the node is absent), and returns the
record with exactly the texts read and the caller-supplied category when
both are non-null; app.ts's `detailToStoreObj` fails only when a node is
absent and passes null text through into the returned record. -/
theorem C4_extract_behaviour (n a gname : String) (x : Option (Option String))
    (g : Option String) :
    Part0.convertDetailToMerchantObj ⟨some (some n), some (some a)⟩ gname =
        Except.ok ⟨n, a, gname⟩ ∧
      Part0.convertDetailToMerchantObj ⟨some none, x⟩ gname =
        Except.error (CrawlError.thrown "加盟店名の取得に失敗しました。") ∧
      Part0.convertDetailToMerchantObj ⟨some (some n), some none⟩ gname =
        Except.error (CrawlError.thrown "住所の取得に失敗しました。") ∧
      Part0.convertDetailToMerchantObj ⟨none, x⟩ gname =
        Except.error (CrawlError.elementNotFound "h4") ∧
      App.detailToStoreObj ⟨some (some n), some (some a)⟩ g =
        Except.ok ⟨some n, some a, g⟩ ∧
      App.detailToStoreObj ⟨some none, some (some a)⟩ g =
        Except.ok ⟨none, some a, g⟩ ∧
      App.detailToStoreObj ⟨some (some n), some none⟩ g =
        Except.ok ⟨some n, none, g⟩ ∧
      App.detailToStoreObj ⟨none, x⟩ g =
        Except.error (CrawlError.elementNotFound "h4") :=
  ⟨rfl, rfl, rfl, rfl, rfl, rfl, rfl, rfl⟩

/-- C5 counterexample: with a highlighted pagination control whose text is
not numeric, both versions return a value (JS `Number` gives NaN) instead
of failing, refuting the claim that a non-numeric text causes a failure. -/
theorem C5_nonnumeric_counterexample :
    Part0.getNowPagination [⟨some (some "次へ"), [], false⟩] =
        Except.ok JSNum.nan ∧
      App.pickCurrentPageNumber [⟨some (some "次へ"), [], false⟩] =
        Except.ok JSNum.nan := by
  have h : jsNumberOfText (some "次へ") = JSNum.nan := by decide
  constructor <;>
    simp [Part0.getNowPagination, App.pickCurrentPageNumber, h]

/-- C5 amended: the current-page read of both versions fails (with the
element-lookup error) exactly when no pagination control is marked
selected; when one is selected it always returns `Number` of its text —
the shown integer when numeric, NaN when non-numeric, 0 when null. -/
theorem C5_current_page_behaviour (t : Option String) (rows : List Row)
    (b : Bool) (rest : List ResultPage) :
    Part0.getNowPagination (⟨some t, rows, b⟩ :: rest) =
        Except.ok (jsNumberOfText t) ∧
      App.pickCurrentPageNumber (⟨some t, rows, b⟩ :: rest) =
        Except.ok (jsNumberOfText t) ∧
      Part0.getNowPagination (⟨none, rows, b⟩ :: rest) =
        Except.error (CrawlError.elementNotFound selPagSelected) ∧
      App.pickCurrentPageNumber (⟨none, rows, b⟩ :: rest) =
        Except.error (CrawlError.elementNotFound selPagSelected) ∧
      Part0.getNowPagination [] =
        Except.error (CrawlError.elementNotFound selPagSelected) ∧
      jsNumberOfText (some "3") = JSNum.num 3 ∧
      jsNumberOfText (some "次へ") = JSNum.nan ∧
      jsNumberOfText none = JSNum.num 0 :=
  ⟨rfl, rfl, rfl, rfl, rfl, by decide, by decide, rfl⟩

/-- C6 counterexample: a successful single-page collection can produce a
record whose name is the empty string (null checks do not enforce
non-emptiness), refuting that every record of a successful collectAll has a
non-empty name. -/
theorem C6_empty_name_counterexample :
    (Part0.getMerchantFromSearchResult
        [⟨some (some "1"), [⟨some (some ""), some (some "石川県")⟩], false⟩]
        "飲食店").1 =
        Except.ok [⟨"", "石川県", "飲食店"⟩] ∧
      ("" : String).isEmpty = true := by
  constructor <;> decide

/-- C6 amended: over a single result page with N extractable rows and no
next-page control, collectAll returns exactly N records whose name, address
and category are exactly the (non-null) texts read and the caller-supplied
category label; the fields are non-null but may be empty strings. -/
theorem C6_single_page_records (genre : String) (t : Option String)
    (rows : List Row) (h : rows.all rowOk = true) :
    (Part0.getMerchantFromSearchResult [⟨some t, rows, false⟩] genre).1 =
        Except.ok (rows.map (Part0.extractMerchant genre)) ∧
      (rows.map (Part0.extractMerchant genre)).length = rows.length ∧
      (App.pickStores [⟨some t, rows, false⟩] (some genre)).1 =
        Except.ok ((rows.map (Part0.extractMerchant genre)).map merchantToStore) := by
  have hok : pagesOk [⟨some t, rows, false⟩] = true := by
    simp [pagesOk, nextFlagsOk, h]
  have h1 := getMerchant_ok genre [⟨some t, rows, false⟩] hok
  have h2 := collect_agree genre [⟨some t, rows, false⟩]
    (pagesOk_rows [⟨some t, rows, false⟩] hok)
  have hpm : Part0.pagesMerchants genre [⟨some t, rows, false⟩] =
      rows.map (Part0.extractMerchant genre) := by
    simp [Part0.pagesMerchants]
  refine ⟨by rw [h1, hpm], by simp, ?_⟩
  rw [h2, h1, hpm]
  simp [mapExcept]

/-- Witness for C6's amended statement at a concrete one-row page. -/
theorem C6_single_page_records_witness :
    (Part0.getMerchantFromSearchResult
        [⟨some (some "1"), [⟨some (some "店A"), some (some "住A")⟩], false⟩]
        "飲食店").1 =
        Except.ok ([⟨some (some "店A"), some (some "住A")⟩].map
          (Part0.extractMerchant "飲食店")) ∧
      ([(⟨some (some "店A"), some (some "住A")⟩ : Row)].map
        (Part0.extractMerchant "飲食店")).length =
        [(⟨some (some "店A"), some (some "住A")⟩ : Row)].length ∧
      (App.pickStores
        [⟨some (some "1"), [⟨some (some "店A"), some (some "住A")⟩], false⟩]
        (some "飲食店")).1 =
        Except.ok (([(⟨some (some "店A"), some (some "住A")⟩ : Row)].map
          (Part0.extractMerchant "飲食店")).map merchantToStore) :=
  C6_single_page_records "飲食店" (some "1")
    [⟨some (some "店A"), some (some "住A")⟩] (by decide)

theorem flatten_length_sum {α : Type} (l : List (List α)) :
    l.flatten.length = (l.map List.length).sum := by
  induction l with
  | nil => rfl
  | cons x xs ih => simp [ih]

theorem genreActions_nil : genreActions [] = [] := rfl

theorem genreActions_cons_skip (e : Event) (tr : List Event)
    (h : isGenreAction e = false) : genreActions (e :: tr) = genreActions tr := by
  simp [genreActions, h]

theorem genreActions_cons_keep (e : Event) (tr : List Event)
    (h : isGenreAction e = true) : genreActions (e :: tr) = e :: genreActions tr := by
  simp [genreActions, h]

theorem submitSelections_clickPrefLink (tr : List Event) (s : List Nat) :
    submitSelections (Event.clickPrefLink :: tr) s = submitSelections tr s := rfl

theorem submitSelections_writeFile (p : String) (rs : List CsvRow)
    (tr : List Event) (s : List Nat) :
    submitSelections (Event.writeFile p rs :: tr) s = submitSelections tr s := rfl

theorem submitSelections_clickNextPref (tr : List Event) (s : List Nat) :
    submitSelections (Event.clickNextPref :: tr) s = submitSelections tr s := rfl

theorem submitSelections_nil (s : List Nat) : submitSelections [] s = [] := rfl

/-- C2: if, on some reached page of a category's paginated results, the
pagination read or a row extraction fails, then the whole collection call
returns that error and no record list, the surrounding `createMaps` aborts
with the same error, and the trace contains no file write for that category
(only the per-category files of the categories completed before it). -/
theorem C2_failure_aborts (pn gl rtext : String) (pref : PrefEl) (env : PageEnv)
    (gs gs' : List GenreEl) (g : GenreEl) (front after : List ResultPage)
    (bad : ResultPage) (e : CrawlError)
    (hp : pref.label = some (some pn)) (hlink : pref.link = true)
    (hsplit : env.genreList = gs ++ g :: gs') (hgs : gs.all genreOk = true)
    (hgl : g.label = some (some gl)) (ha : g.anchor = true)
    (hrt : g.resultText = some (some rtext))
    (hpages : g.pages = front ++ bad :: after)
    (hfront : ∀ q ∈ front, q.selected.isSome = true ∧ q.rows.all rowOk = true ∧
      q.hasNext = true)
    (hbad : Part0.pageError gl bad = some e) :
    (Part0.getMerchantFromSearchResult g.pages gl).1 = Except.error e ∧
      (Part0.createMaps pref env).1 = Except.error e ∧
      writesOf (Part0.createMaps pref env).2 = Part0.expectedWrites pn gs := by
  have hfail : (Part0.getMerchantFromSearchResult g.pages gl).1 = Except.error e := by
    rw [hpages]
    exact getMerchant_fails gl front bad after e hfront hbad
  have hrg := fun idx => runGenre_fails idx pn gl rtext g hgl ha hrt e hfail
  have hmaps := createMaps_failsAt pref env pn g gs gs' e hp hlink hsplit hgs hrg
  exact ⟨hfail, hmaps.1, hmaps.2⟩

/-- Witness for C2: a single-category region whose only result page has a
row with null address text; the collection aborts with the address error,
`createMaps` propagates it, and no file at all is written. -/
theorem C2_failure_aborts_witness :
    (Part0.getMerchantFromSearchResult
        [⟨some (some "1"), [⟨some (some "店A"), some none⟩], false⟩] "レストラン").1 =
        Except.error (CrawlError.thrown "住所の取得に失敗しました。") ∧
      (Part0.createMaps ⟨some (some "石川県"), true⟩
        ⟨[⟨some (some "レストラン"), true, some (some "検索結果 1件"),
          [⟨some (some "1"), [⟨some (some "店A"), some none⟩], false⟩]⟩], true⟩).1 =
        Except.error (CrawlError.thrown "住所の取得に失敗しました。") ∧
      writesOf (Part0.createMaps ⟨some (some "石川県"), true⟩
        ⟨[⟨some (some "レストラン"), true, some (some "検索結果 1件"),
          [⟨some (some "1"), [⟨some (some "店A"), some none⟩], false⟩]⟩], true⟩).2 =
        Part0.expectedWrites "石川県" [] :=
  C2_failure_aborts "石川県" "レストラン" "検索結果 1件" ⟨some (some "石川県"), true⟩
    ⟨[⟨some (some "レストラン"), true, some (some "検索結果 1件"),
      [⟨some (some "1"), [⟨some (some "店A"), some none⟩], false⟩]⟩], true⟩
    [] [] ⟨some (some "レストラン"), true, some (some "検索結果 1件"),
      [⟨some (some "1"), [⟨some (some "店A"), some none⟩], false⟩]⟩
    [] [] ⟨some (some "1"), [⟨some (some "店A"), some none⟩], false⟩
    (CrawlError.thrown "住所の取得に失敗しました。")
    rfl rfl rfl (by decide) rfl rfl rfl rfl
    (by intro q hq; cases hq) (by decide)

/-- C3: a completed category walk writes exactly one file per category, in
category order, plus one aggregate file under category label "all", each at
path `./dist/<region label>-<category label>.csv`; the number of per-category
files equals the number of categories, and the aggregate's record count is
the sum of the per-category record counts. -/
theorem C3_walk_files (pref : PrefEl) (env : PageEnv)
    (hp : prefOk pref = true) (hgs : env.genreList.all genreOk = true) :
    writesOf (Part0.createMaps pref env).2 =
        Part0.expectedWrites (attrText pref.label) env.genreList ++
          [(csvPath (attrText pref.label) "all",
            ((env.genreList.map Part0.genreMerchants).flatten).map
              Part0.Merchant.toCsvRow)] ∧
      (Part0.expectedWrites (attrText pref.label) env.genreList).length =
        env.genreList.length ∧
      ((env.genreList.map Part0.genreMerchants).flatten).length =
        (env.genreList.map (fun g => (Part0.genreMerchants g).length)).sum := by
  have h := createMaps_run pref env hp hgs
  refine ⟨?_, expectedWrites_length _ _, ?_⟩
  · rw [h]
    cases hnl : env.nextPrefLink <;>
      simp [Part0.walkTrace, writesOf_append, writesOf, writesOf_genreBlocks,
        Part0.saveMerchantsToCSVFile]
  · rw [flatten_length_sum]
    simp [List.map_map, Function.comp_def]

/-- Witness for C3: a one-category region with a single one-row result
page. -/
theorem C3_walk_files_witness :
    writesOf (Part0.createMaps ⟨some (some "石川県"), true⟩
        ⟨[⟨some (some "レストラン"), true, some (some "検索結果 1件"),
          [⟨some (some "1"), [⟨some (some "店A"), some (some "住A")⟩], false⟩]⟩],
          true⟩).2 =
        Part0.expectedWrites
          (attrText (some (some "石川県")))
          [⟨some (some "レストラン"), true, some (some "検索結果 1件"),
            [⟨some (some "1"), [⟨some (some "店A"), some (some "住A")⟩], false⟩]⟩] ++
          [(csvPath (attrText (some (some "石川県"))) "all",
            (([⟨some (some "レストラン"), true, some (some "検索結果 1件"),
              [⟨some (some "1"), [⟨some (some "店A"), some (some "住A")⟩], false⟩]⟩].map
                Part0.genreMerchants).flatten).map Part0.Merchant.toCsvRow)] ∧
      (Part0.expectedWrites (attrText (some (some "石川県")))
        [⟨some (some "レストラン"), true, some (some "検索結果 1件"),
          [⟨some (some "1"), [⟨some (some "店A"), some (some "住A")⟩], false⟩]⟩]).length =
        ([(⟨some (some "レストラン"), true, some (some "検索結果 1件"),
          [⟨some (some "1"), [⟨some (some "店A"), some (some "住A")⟩], false⟩]⟩ :
            GenreEl)]).length ∧
      (([⟨some (some "レストラン"), true, some (some "検索結果 1件"),
        [⟨some (some "1"), [⟨some (some "店A"), some (some "住A")⟩], false⟩]⟩].map
          Part0.genreMerchants).flatten).length =
        ([(⟨some (some "レストラン"), true, some (some "検索結果 1件"),
          [⟨some (some "1"), [⟨some (some "店A"), some (some "住A")⟩], false⟩]⟩ :
            GenreEl)].map (fun g => (Part0.genreMerchants g).length)).sum :=
  C3_walk_files ⟨some (some "石川県"), true⟩
    ⟨[⟨some (some "レストラン"), true, some (some "検索結果 1件"),
      [⟨some (some "1"), [⟨some (some "店A"), some (some "住A")⟩], false⟩]⟩], true⟩
    (by decide) (by decide)

/-- C7: over a completed category walk, the genre-selector clicks and file
writes occur, per category, as activate — write the category's file —
deactivate, before the next category's activation (followed only by the
aggregate write); consequently, at every search submission exactly the one
selector of the current category is in the selected state. -/
theorem C7_toggle_discipline (pref : PrefEl) (env : PageEnv)
    (hp : prefOk pref = true) (hgs : env.genreList.all genreOk = true) :
    genreActions (Part0.createMaps pref env).2 =
        Part0.expectedGenreActions (attrText pref.label) 0 env.genreList ++
          [Part0.saveMerchantsToCSVFile
            ((env.genreList.map Part0.genreMerchants).flatten)
            (attrText pref.label) "all"] ∧
      submitSelections (Part0.createMaps pref env).2 [] =
        idxSingles 0 env.genreList.length := by
  have h := createMaps_run pref env hp hgs
  constructor
  · rw [h]
    cases hnl : env.nextPrefLink <;>
      simp [hnl, Part0.walkTrace, genreActions_append, genreActions_genreBlocks,
        genreActions_cons_skip, genreActions_cons_keep, genreActions_nil,
        isGenreAction, Part0.saveMerchantsToCSVFile]
  · rw [h]
    cases hnl : env.nextPrefLink <;>
      simp only [hnl, Bool.false_eq_true, if_false, if_true, List.append_nil,
        Part0.walkTrace, Part0.saveMerchantsToCSVFile, List.cons_append,
        List.append_assoc, List.nil_append, submitSelections_clickPrefLink,
        submitSelections_genreBlocks, submitSelections_writeFile,
        submitSelections_clickNextPref, submitSelections_nil, List.append_nil]

/-- Witness for C7: one category, one result page with one row. -/
theorem C7_toggle_discipline_witness :
    genreActions (Part0.createMaps ⟨some (some "石川県"), true⟩
        ⟨[⟨some (some "レストラン"), true, some (some "検索結果 1件"),
          [⟨some (some "1"), [⟨some (some "店A"), some (some "住A")⟩], false⟩]⟩],
          true⟩).2 =
        Part0.expectedGenreActions (attrText (some (some "石川県"))) 0
          [⟨some (some "レストラン"), true, some (some "検索結果 1件"),
            [⟨some (some "1"), [⟨some (some "店A"), some (some "住A")⟩], false⟩]⟩] ++
          [Part0.saveMerchantsToCSVFile
            (([⟨some (some "レストラン"), true, some (some "検索結果 1件"),
              [⟨some (some "1"), [⟨some (some "店A"), some (some "住A")⟩], false⟩]⟩].map
                Part0.genreMerchants).flatten)
            (attrText (some (some "石川県"))) "all"] ∧
      submitSelections (Part0.createMaps ⟨some (some "石川県"), true⟩
        ⟨[⟨some (some "レストラン"), true, some (some "検索結果 1件"),
          [⟨some (some "1"), [⟨some (some "店A"), some (some "住A")⟩], false⟩]⟩],
          true⟩).2 [] =
        idxSingles 0 ([(⟨some (some "レストラン"), true, some (some "検索結果 1件"),
          [⟨some (some "1"), [⟨some (some "店A"), some (some "住A")⟩], false⟩]⟩ :
            GenreEl)]).length :=
  C7_toggle_discipline ⟨some (some "石川県"), true⟩
    ⟨[⟨some (some "レストラン"), true, some (some "検索結果 1件"),
      [⟨some (some "1"), [⟨some (some "店A"), some (some "住A")⟩], false⟩]⟩], true⟩
    (by decide) (by decide)

/-- C8: after a completed category walk, the aggregate file write is
followed immediately by locating and clicking the next-region link; when
that link is absent `createMaps` fails with the navigation error (the
aggregate having been written), and this holds for the last requested
region too: `main`'s run on its single requested region index still ends
with that error. -/
theorem C8_next_region (pref : PrefEl) (env : PageEnv)
    (hp : prefOk pref = true) (hgs : env.genreList.all genreOk = true) :
    (env.nextPrefLink = true →
      Part0.createMaps pref env =
        (Except.ok (),
          Part0.walkTrace (attrText pref.label) env ++ [Event.clickNextPref])) ∧
      (env.nextPrefLink = false →
        Part0.createMaps pref env =
          (Except.error (CrawlError.thrown "次の都道府県のリンクの取得に失敗しました。"),
            Part0.walkTrace (attrText pref.label) env)) ∧
      (∀ allPrefs : List PrefEl, allPrefs[17]? = some pref →
        env.nextPrefLink = false →
        (Part0.main allPrefs env).1 =
          Except.error (CrawlError.thrown "次の都道府県のリンクの取得に失敗しました。")) := by
  have h := createMaps_run pref env hp hgs
  refine ⟨?_, ?_, ?_⟩
  · intro hnl
    rw [h, hnl]
    simp
  · intro hnl
    rw [h, hnl]
    simp
  · intro allPrefs h17 hnl
    simp only [Part0.main, List.map_cons, List.map_nil, h17, Part0.mainLoop,
      Part0.createMapsOpt]
    rw [h, hnl]
    simp

/-- Witness for C8 at a one-category region with no next-region link, also
placed at position 17 of a concrete region list. -/
theorem C8_next_region_witness :
    ((⟨[⟨some (some "レストラン"), true, some (some "検索結果 1件"),
        [⟨some (some "1"), [⟨some (some "店A"), some (some "住A")⟩], false⟩]⟩],
        false⟩ : PageEnv).nextPrefLink = true →
      Part0.createMaps ⟨some (some "石川県"), true⟩
        ⟨[⟨some (some "レストラン"), true, some (some "検索結果 1件"),
          [⟨some (some "1"), [⟨some (some "店A"), some (some "住A")⟩], false⟩]⟩],
          false⟩ =
        (Except.ok (),
          Part0.walkTrace (attrText (some (some "石川県")))
            ⟨[⟨some (some "レストラン"), true, some (some "検索結果 1件"),
              [⟨some (some "1"), [⟨some (some "店A"), some (some "住A")⟩], false⟩]⟩],
              false⟩ ++ [Event.clickNextPref])) ∧
      ((⟨[⟨some (some "レストラン"), true, some (some "検索結果 1件"),
          [⟨some (some "1"), [⟨some (some "店A"), some (some "住A")⟩], false⟩]⟩],
          false⟩ : PageEnv).nextPrefLink = false →
        Part0.createMaps ⟨some (some "石川県"), true⟩
          ⟨[⟨some (some "レストラン"), true, some (some "検索結果 1件"),
            [⟨some (some "1"), [⟨some (some "店A"), some (some "住A")⟩], false⟩]⟩],
            false⟩ =
          (Except.error (CrawlError.thrown "次の都道府県のリンクの取得に失敗しました。"),
            Part0.walkTrace (attrText (some (some "石川県")))
              ⟨[⟨some (some "レストラン"), true, some (some "検索結果 1件"),
                [⟨some (some "1"), [⟨some (some "店A"), some (some "住A")⟩],
                  false⟩]⟩], false⟩)) ∧
      (∀ allPrefs : List PrefEl, allPrefs[17]? = some ⟨some (some "石川県"), true⟩ →
        (⟨[⟨some (some "レストラン"), true, some (some "検索結果 1件"),
          [⟨some (some "1"), [⟨some (some "店A"), some (some "住A")⟩], false⟩]⟩],
          false⟩ : PageEnv).nextPrefLink = false →
        (Part0.main allPrefs
          ⟨[⟨some (some "レストラン"), true, some (some "検索結果 1件"),
            [⟨some (some "1"), [⟨some (some "店A"), some (some "住A")⟩], false⟩]⟩],
            false⟩).1 =
          Except.error (CrawlError.thrown "次の都道府県のリンクの取得に失敗しました。")) :=
  C8_next_region ⟨some (some "石川県"), true⟩
    ⟨[⟨some (some "レストラン"), true, some (some "検索結果 1件"),
      [⟨some (some "1"), [⟨some (some "店A"), some (some "住A")⟩], false⟩]⟩], false⟩
    (by decide) (by decide)

/-- C9: on a crawl in which every DOM text/attribute read returns non-null
text and every queried element exists, the two versions are equivalent:
`createMaps` of app.ts and of part_000 return the same result and emit the
identical sequence of selection, search, pagination, click and file-write
events, and likewise their `main`s on the same region list. -/
theorem C9_versions_agree (allPrefs : List PrefEl) (env : PageEnv)
    (pref : PrefEl) (pn : String) (h17 : allPrefs[17]? = some pref)
    (hp : pref.label = some (some pn)) (hlink : pref.link = true)
    (hgs : env.genreList.all genreAgree = true)
    (hnext : env.nextPrefLink = true) :
    App.createMaps pref env = Part0.createMaps pref env ∧
      App.main allPrefs env = Part0.main allPrefs env :=
  ⟨createMaps_agree pref env pn hp hlink hgs hnext,
    main_agree allPrefs env pref pn h17 hp hlink hgs hnext⟩

/-- Witness for C9: a fully-present one-category region at position 17 of
an 18-element region list. -/
theorem C9_versions_agree_witness :
    App.createMaps ⟨some (some "石川県"), true⟩
        ⟨[⟨some (some "レストラン"), true, some (some "検索結果 1件"),
          [⟨some (some "1"), [⟨some (some "店A"), some (some "住A")⟩], false⟩]⟩],
          true⟩ =
      Part0.createMaps ⟨some (some "石川県"), true⟩
        ⟨[⟨some (some "レストラン"), true, some (some "検索結果 1件"),
          [⟨some (some "1"), [⟨some (some "店A"), some (some "住A")⟩], false⟩]⟩],
          true⟩ ∧
      App.main (List.replicate 17 ⟨none, false⟩ ++ [⟨some (some "石川県"), true⟩])
        ⟨[⟨some (some "レストラン"), true, some (some "検索結果 1件"),
          [⟨some (some "1"), [⟨some (some "店A"), some (some "住A")⟩], false⟩]⟩],
          true⟩ =
      Part0.main (List.replicate 17 ⟨none, false⟩ ++ [⟨some (some "石川県"), true⟩])
        ⟨[⟨some (some "レストラン"), true, some (some "検索結果 1件"),
          [⟨some (some "1"), [⟨some (some "店A"), some (some "住A")⟩], false⟩]⟩],
          true⟩ :=
  C9_versions_agree
    (List.replicate 17 ⟨none, false⟩ ++ [⟨some (some "石川県"), true⟩])
    ⟨[⟨some (some "レストラン"), true, some (some "検索結果 1件"),
      [⟨some (some "1"), [⟨some (some "店A"), some (some "住A")⟩], false⟩]⟩], true⟩
    ⟨some (some "石川県"), true⟩ "石川県"
    (by decide) rfl rfl (by decide) rfl

/-- C10: both versions index the enumerated region list at the fixed
position 17 with no bounds check, so whenever that list has 17 or fewer
entries the run fails with the TypeError raised on the undefined element,
having emitted no event — in particular before any file is written. -/
theorem C10_out_of_bounds (allPrefs : List PrefEl) (env : PageEnv)
    (h : allPrefs.length ≤ 17) :
    Part0.main allPrefs env = (Except.error CrawlError.typeError, []) ∧
      App.main allPrefs env = (Except.error CrawlError.typeError, []) ∧
      writesOf (Part0.main allPrefs env).2 = [] := by
  have h17 : allPrefs[17]? = none := by
    rw [List.getElem?_eq_none]
    exact h
  refine ⟨?_, ?_, ?_⟩ <;>
    simp [Part0.main, App.main, Part0.mainLoop, App.mainLoop,
      Part0.createMapsOpt, App.createMapsOpt, h17, writesOf]

/-- Witness for C10: the empty region list. -/
theorem C10_out_of_bounds_witness :
    Part0.main [] ⟨[], true⟩ = (Except.error CrawlError.typeError, []) ∧
      App.main [] ⟨[], true⟩ = (Except.error CrawlError.typeError, []) ∧
      writesOf (Part0.main [] ⟨[], true⟩).2 = [] :=
  C10_out_of_bounds [] ⟨[], true⟩ (by decide)
